/-
Verification of the superwhisper-linux core pipeline.

Shallow embedding of the engineering core of the repository:
  src/superwhisper/audio.py       (resample, AudioRecorder, device discovery)
  src/superwhisper/transcribe.py  (Transcriber.transcribe)
  src/superwhisper/main.py        (SuperWhisper worker loop and stop-recording)

Modelling conventions:
  - numpy float32 sample values are modelled as exact rationals (ℚ);
    Python ints as ℕ.  Float rounding is not modelled.
  - fallible Python code (exceptions) is modelled with Except String.
  - stateful objects are modelled as structures holding exactly the data
    fields of the Python object; OS handles (sounddevice streams, locks,
    subprocesses) and logging calls are omitted as they carry no data.
-/
import Mathlib

namespace Superwhisper

/-! ### numpy collaborators

`audio.py` calls `np.linspace` and `np.interp`; these are modelled here from
numpy's documented semantics.  Python's `int()` truncation (toward zero) on a
nonnegative rational is modelled by `intTrunc`. -/

/-- Python `int()` applied to a nonnegative rational: truncation toward zero,
computed structurally from the reduced numerator and denominator. -/
def intTrunc (q : ℚ) : ℕ :=
  q.num.toNat / q.den

/-- Model of `np.linspace(start, stop, num)`: `num` evenly spaced points from
`start` to `stop`, endpoints included (numpy's default `endpoint=True`).
`num = 0` gives the empty array and `num = 1` gives `[start]`. -/
def linspace (start stop : ℚ) (num : ℕ) : List ℚ :=
  match num with
  | 0 => []
  | 1 => [start]
  | n + 2 => (List.range (n + 2)).map (fun (i : ℕ) => start + (stop - start) * (i : ℚ) / ((n : ℚ) + 1))

/-- Pointwise semantics of `np.interp` for one query point `t`, given the
first sample point `x0 ↦ f0` and the remaining points.  For `t` below the
first point the first value is returned, beyond the last point the last
value; otherwise linear interpolation on the bracketing interval.
(numpy assumes the sample points are increasing; all call sites here pass a
strictly increasing `linspace`.) -/
def interpPoint (t : ℚ) : ℚ → ℚ → List (ℚ × ℚ) → ℚ
  | _, f0, [] => f0
  | x0, f0, (x1, f1) :: rest =>
    if t ≤ x0 then f0
    else if t ≤ x1 then f0 + (f1 - f0) * (t - x0) / (x1 - x0)
    else interpPoint t x1 f1 rest

/-- Model of `np.interp(x, xp, fp)`.  numpy raises `ValueError: array of
sample points is empty` when `xp` is empty, and `ValueError: fp and xp are
not of the same length` when the lengths differ; otherwise it maps every
query point through piecewise-linear interpolation. -/
def interp (x xp fp : List ℚ) : Except String (List ℚ) :=
  match xp, fp with
  | [], _ => .error "array of sample points is empty"
  | _ :: _, [] => .error "fp and xp are not of the same length"
  | x0 :: xps, f0 :: fps =>
    if xps.length = fps.length then
      .ok (x.map (fun t => interpPoint t x0 f0 (xps.zip fps)))
    else .error "fp and xp are not of the same length"

/-! ### IEEE-754 binary64 arithmetic

Python computes `len(audio) / orig_sr` and `duration * target_sr` in double
precision, and the rounding is observable: `int(3003/48000*16000)` is 1000
although the exact value is 1001.001.  Rounding a rational to the nearest
binary64 value (round to nearest, ties to even) is an exact function on ℚ
and is modelled here for the normal range (no subnormals, no overflow —
the audio lengths and sample rates involved are far inside it). -/

/-- Floor of the base-2 logarithm on ℕ, by fuel-bounded structural recursion;
fuel 1100 covers the whole binary64 normal exponent range. -/
def log2Nat : ℕ → ℕ → ℕ
  | 0, _ => 0
  | fuel + 1, n => if n ≤ 1 then 0 else log2Nat fuel (n / 2) + 1

/-- Round the nonnegative fraction `p / r` to the nearest integer, ties to
even (the IEEE-754 default rounding of a halfway case). -/
def rneInt (p r : ℕ) : ℕ :=
  if 2 * (p % r) < r then p / r
  else if r < 2 * (p % r) then p / r + 1
  else if (p / r) % 2 = 0 then p / r else p / r + 1

/-- A nonnegative binary64 value, as exact significand-exponent data: the
value is `sig * 2 ^ exp` (zero is `sig = 0`).  Kept in ℕ/ℤ form so that the
rounding pipeline is computable by plain natural-number arithmetic. -/
structure Float64 where
  sig : ℕ
  exp : ℤ
deriving DecidableEq

/-- The exact rational value of a nonnegative binary64 datum. -/
def Float64.toRat (x : Float64) : ℚ :=
  (x.sig : ℚ) * (2 : ℚ) ^ x.exp

/-- Round the positive fraction `a / b` to the nearest binary64 value: find
the exponent `e` with `2^e ≤ a/b < 2^(e+1)`, scale into `[2^52, 2^53)`,
round the 53-bit significand to nearest with ties to even, and return the
significand with its scale. -/
def roundPosDouble (a b : ℕ) : Float64 :=
  let e0 : ℤ := (log2Nat 1100 a : ℤ) - (log2Nat 1100 b : ℤ)
  let e : ℤ :=
    if (if 0 ≤ e0 then a < b * 2 ^ e0.toNat else a * 2 ^ (-e0).toNat < b)
    then e0 - 1 else e0
  let t : ℤ := 52 - e
  if 0 ≤ t then ⟨rneInt (a * 2 ^ t.toNat) b, -t⟩
  else ⟨rneInt a (b * 2 ^ (-t).toNat), -t⟩

/-- CPython float true division `a / b` of two nonnegative ints (exactly
representable here): the correctly rounded binary64 quotient.  `b = 0` would
be a ZeroDivisionError in Python; the caller (`resample`) models that case
before this value is used. -/
def floatDivNat (a b : ℕ) : Float64 :=
  if a = 0 then ⟨0, 0⟩ else roundPosDouble a b

/-- binary64 multiplication of a nonnegative double by a nonnegative int
(exactly representable): the correctly rounded product
`sig * c * 2 ^ exp`. -/
def Float64.mulNat (x : Float64) (c : ℕ) : Float64 :=
  if x.sig * c = 0 then ⟨0, 0⟩
  else if 0 ≤ x.exp then roundPosDouble (x.sig * c * 2 ^ x.exp.toNat) 1
  else roundPosDouble (x.sig * c) (2 ^ (-x.exp).toNat)

/-- Python `int()` applied to a nonnegative double: truncation toward
zero. -/
def Float64.trunc (x : Float64) : ℕ :=
  if 0 ≤ x.exp then x.sig * 2 ^ x.exp.toNat else x.sig / 2 ^ (-x.exp).toNat

/-! ### audio.py: resample (lines 14-24) -/

/-- Local `duration = len(audio) / orig_sr` of `resample` (audio.py:19):
the exact value of the double-precision true division of two Python ints
(both exactly representable here).  With `orig_sr = 0` Python would raise
ZeroDivisionError; `resample` models that case explicitly before using this
value. -/
def duration (audio : List ℚ) (orig_sr : ℕ) : ℚ :=
  (floatDivNat audio.length orig_sr).toRat

/-- Local `target_length = int(duration * target_sr)` of `resample`
(audio.py:20): the double-precision product truncated toward zero. -/
def targetLength (audio : List ℚ) (orig_sr target_sr : ℕ) : ℕ :=
  ((floatDivNat audio.length orig_sr).mulNat target_sr).trunc

/-- Embedding of `resample(audio, orig_sr, target_sr)` (audio.py:14-24).
Returns the input unchanged when the rates agree; otherwise interpolates
the signal at `target_length` evenly spaced points across `[0, duration]`.
Failure modes are surfaced as `Except.error`: division by zero when
`orig_sr = 0`, and the `np.interp` errors (in particular on empty input). -/
def resample (audio : List ℚ) (orig_sr target_sr : ℕ) : Except String (List ℚ) :=
  if orig_sr = target_sr then .ok audio
  else if orig_sr = 0 then .error "division by zero"
  else
    interp (linspace 0 (duration audio orig_sr) (targetLength audio orig_sr target_sr))
      (linspace 0 (duration audio orig_sr) audio.length)
      audio

/-! ### basic lemmas about the numpy model -/

theorem linspace_length (start stop : ℚ) (num : ℕ) :
    (linspace start stop num).length = num := by
  match num with
  | 0 => rfl
  | 1 => rfl
  | n + 2 =>
    simp only [linspace, List.length_map, List.length_range]

theorem interp_ok (x xp fp : List ℚ) (hne : xp ≠ []) (hlen : xp.length = fp.length) :
    ∃ ys, interp x xp fp = .ok ys ∧ ys.length = x.length := by
  match xp, fp with
  | [], _ => exact absurd rfl hne
  | x0 :: xps, [] => simp at hlen
  | x0 :: xps, f0 :: fps =>
    have h : xps.length = fps.length := by simpa using hlen
    refine ⟨x.map (fun t => interpPoint t x0 f0 (xps.zip fps)), ?_, by simp⟩
    simp [interp, h]

theorem intTrunc_eq_floor (q : ℚ) (hq : 0 ≤ q) : (intTrunc q : ℤ) = ⌊q⌋ := by
  rw [Rat.floor_def, intTrunc, Int.natCast_div]
  congr 1
  exact Int.toNat_of_nonneg (Rat.num_nonneg.mpr hq)

theorem intTrunc_natCast_div (a b : ℕ) :
    intTrunc ((a : ℚ) / (b : ℚ)) = a / b := by
  have hq : (0 : ℚ) ≤ (a : ℚ) / (b : ℚ) := by positivity
  have h := intTrunc_eq_floor ((a : ℚ) / (b : ℚ)) hq
  rw [Rat.floor_natCast_div_natCast a b] at h
  exact_mod_cast h

theorem interp_ok_eq (x : List ℚ) (x0 f0 : ℚ) (xps fps : List ℚ)
    (hlen : xps.length = fps.length) :
    interp x (x0 :: xps) (f0 :: fps) =
      .ok (x.map (fun t => interpPoint t x0 f0 (xps.zip fps))) := by
  simp [interp, hlen]

theorem interpPoint_of_le (t x0 f0 : ℚ) (l : List (ℚ × ℚ)) (h : t ≤ x0) :
    interpPoint t x0 f0 l = f0 := by
  cases l with
  | nil => rfl
  | cons p rest => cases p; simp [interpPoint, h]

theorem linspace_head (stop : ℚ) (num : ℕ) (h : 0 < num) :
    (linspace 0 stop num).head? = some 0 := by
  match num with
  | 1 => rfl
  | n + 2 =>
    simp [linspace, List.range_succ_eq_map]

theorem linspace_ne_nil (start stop : ℚ) (num : ℕ) (h : 0 < num) :
    linspace start stop num ≠ [] := by
  intro hnil
  have hl := linspace_length start stop num
  rw [hnil] at hl
  simp only [List.length_nil] at hl
  omega

/-- The target length depends on the input buffer only through its length. -/
theorem targetLength_def (audio : List ℚ) (r1 r2 : ℕ) :
    targetLength audio r1 r2 = ((floatDivNat audio.length r1).mulNat r2).trunc :=
  rfl

/-- C4 counterexample: `resample` on the empty buffer with differing rates does
not return the empty buffer; it fails with numpy's empty-sample-points
ValueError (the interpolation's `x_old` array is empty). -/
theorem c4_resample_empty_counterexample :
    resample [] 48000 16000 = .error "array of sample points is empty" ∧
    48000 ≠ 16000 :=
  ⟨rfl, by decide⟩

/-- C4 (amended): `resample` is deterministic with no side effects, and it
never fails when the two rates are equal (returning the input unchanged, the
empty buffer included) or when the input buffer is non-empty and the origin
rate is positive.  On the empty buffer with differing rates, however, the
`np.interp` call raises (empty array of sample points), so empty input yields
empty output only in the equal-rates case. -/
theorem c4_resample_totality :
    ∀ (audio : List ℚ) (r r1 r2 : ℕ),
      resample audio r r = .ok audio ∧
      (audio ≠ [] → 0 < r1 → ∃ ys, resample audio r1 r2 = .ok ys) := by
  intro audio r r1 r2
  constructor
  · simp [resample]
  · intro hne h1
    by_cases heq : r1 = r2
    · exact ⟨audio, by simp [resample, heq]⟩
    · have h0 : r1 ≠ 0 := Nat.pos_iff_ne_zero.mp h1
      have hlen : 0 < audio.length := List.length_pos.mpr hne
      obtain ⟨ys, hok, _⟩ := interp_ok
        (linspace 0 (duration audio r1) (targetLength audio r1 r2))
        (linspace 0 (duration audio r1) audio.length) audio
        (linspace_ne_nil _ _ _ hlen)
        (by rw [linspace_length])
      exact ⟨ys, by simp [resample, heq, h0, hok]⟩

/-- C4 witness at concrete inputs. -/
theorem c4_resample_totality_witness :
    resample [1, 2] 5 5 = .ok [1, 2] ∧
    ∃ ys, resample [1, 2] 2 4 = .ok ys :=
  ⟨(c4_resample_totality [1, 2] 5 2 4).1,
   (c4_resample_totality [1, 2] 5 2 4).2 (by simp) (by decide)⟩

theorem resample_ok_length (audio : List ℚ) (r1 r2 : ℕ)
    (hne : audio ≠ []) (h1 : 0 < r1) (hdiff : r1 ≠ r2) :
    ∃ ys, resample audio r1 r2 = .ok ys ∧
      ys.length = targetLength audio r1 r2 ∧
      (0 < targetLength audio r1 r2 → ys.head? = audio.head?) := by
  have h0 : r1 ≠ 0 := Nat.pos_iff_ne_zero.mp h1
  have hlen : 0 < audio.length := List.length_pos.mpr hne
  obtain ⟨a, as, rfl⟩ := List.exists_cons_of_ne_nil hne
  set d := duration (a :: as) r1 with hd
  set tl := targetLength (a :: as) r1 r2 with htl
  have hxold_ne : linspace 0 d (a :: as).length ≠ [] := linspace_ne_nil _ _ _ hlen
  obtain ⟨x0, xps, hxold⟩ := List.exists_cons_of_ne_nil hxold_ne
  have hx0 : x0 = 0 := by
    have hh := linspace_head d (a :: as).length hlen
    rw [hxold] at hh
    simpa using hh
  have hlens : xps.length = as.length := by
    have hl := linspace_length 0 d (a :: as).length
    rw [hxold] at hl
    simpa using hl
  have hres : resample (a :: as) r1 r2 =
      .ok ((linspace 0 d tl).map
        (fun t => interpPoint t x0 a (xps.zip as))) := by
    rw [resample, if_neg hdiff, if_neg h0, ← hd, ← htl, hxold,
      interp_ok_eq _ _ _ _ _ hlens]
  refine ⟨_, hres, ?_, ?_⟩
  · rw [List.length_map, linspace_length]
  · intro hpos
    have htlpos : 0 < tl := hpos
    have hhead := linspace_head d tl htlpos
    obtain ⟨t0, ts, hts⟩ := List.exists_cons_of_ne_nil (linspace_ne_nil 0 d tl htlpos)
    have ht0 : t0 = 0 := by rw [hts] at hhead; simpa using hhead
    rw [hts]
    simp only [List.map_cons, List.head?_cons]
    rw [ht0, hx0, interpPoint_of_le 0 0 a (xps.zip as) le_rfl]

/-- C7 counterexample: at concrete inputs the program's output length is not
the exact `⌊len(x)/r1 * r2⌋`.  A 3003-sample buffer resampled 48000 → 16000
produces 1000 samples (the double-precision `3003/48000*16000` lands just
below 1001 and `int()` truncates), while the exact floor is 1001; a 1-sample
buffer resampled 49 → 98 produces 1 sample while the exact floor is 2. -/
theorem c7_resample_length_counterexample :
    (∃ ys, resample (List.replicate 3003 0) 48000 16000 = .ok ys ∧
      ys.length = 1000) ∧
    (List.replicate 3003 (0 : ℚ)).length * 16000 / 48000 = 1001 ∧
    (∃ ys, resample (List.replicate 1 0) 49 98 = .ok ys ∧ ys.length = 1) ∧
    (List.replicate 1 (0 : ℚ)).length * 98 / 49 = 2 := by
  refine ⟨?_, by rw [List.length_replicate], ?_, by rw [List.length_replicate]⟩
  · obtain ⟨ys, hok, hlen, -⟩ :=
      resample_ok_length (List.replicate 3003 0) 48000 16000
        (List.ne_nil_of_length_pos (by rw [List.length_replicate]; norm_num))
        (by norm_num) (by norm_num)
    have ht : targetLength (List.replicate 3003 0) 48000 16000 = 1000 := by
      rw [targetLength_def, List.length_replicate]
      decide
    exact ⟨ys, hok, by rw [hlen, ht]⟩
  · obtain ⟨ys, hok, hlen, -⟩ :=
      resample_ok_length (List.replicate 1 0) 49 98
        (List.ne_nil_of_length_pos (by rw [List.length_replicate]; norm_num))
        (by norm_num) (by norm_num)
    have ht : targetLength (List.replicate 1 0) 49 98 = 1 := by
      rw [targetLength_def, List.length_replicate]
      decide
    exact ⟨ys, hok, by rw [hlen, ht]⟩

/-- C7 (amended): for a non-empty buffer and distinct positive rates,
`resample` succeeds and its output has exactly
`int(fl(fl(len(x)/r1) * r2))` samples — the double-precision evaluation of
`len(x)/r1 * r2`, truncated toward zero — which can land one below the exact
`⌊len(x)/r1 * r2⌋` (3003 samples at 48000 → 16000 give 1000, not 1001).  The
interpolation grid spans `[0, duration]` starting at time 0, so the first
output sample is the first input sample. -/
theorem c7_resample_length_float (audio : List ℚ) (r1 r2 : ℕ)
    (hne : audio ≠ []) (h1 : 0 < r1) (h2 : 0 < r2) (hdiff : r1 ≠ r2) :
    ∃ ys, resample audio r1 r2 = .ok ys ∧
      ys.length = targetLength audio r1 r2 ∧
      (0 < targetLength audio r1 r2 → ys.head? = audio.head?) :=
  resample_ok_length audio r1 r2 hne h1 hdiff

/-- C7 witness at concrete inputs: two samples resampled 2 → 4 Hz, where the
double-precision length agrees with the exact value 4. -/
theorem c7_resample_length_float_witness :
    ∃ ys, resample [1, 2] 2 4 = .ok ys ∧
      ys.length = 4 ∧ (0 < 4 → ys.head? = some 1) := by
  have h := c7_resample_length_float [1, 2] 2 4 (by simp) (by decide) (by decide) (by decide)
  have ht : targetLength [1, 2] 2 4 = 4 := by decide
  rw [ht] at h
  simpa using h

/-! ### audio.py: AudioRecorder (lines 27-122)

The recorder object is modelled by its data fields set in `__init__`
(audio.py:33-39): `_recording`, `_audio_data` and `_device_sample_rate`.
The `_lock` and `_stream` fields are an OS mutex and a sounddevice stream
handle and carry no data; the `device` identity field plays no role in the
claims about callback/stop behaviour.  Chunks delivered by the driver are
mono, so a chunk is a `List ℚ` (the `flatten()` in `stop` collapses the
frames-by-one-channel shape). -/

/-- Class constant `AudioRecorder.TARGET_SAMPLE_RATE = 16000` (audio.py:30). -/
def TARGET_SAMPLE_RATE : ℕ := 16000

/-- Data fields of `AudioRecorder` (audio.py:33-39). -/
structure AudioRecorder where
  recording : Bool
  audio_data : List (List ℚ)
  device_sample_rate : ℕ
deriving DecidableEq

/-- Embedding of `AudioRecorder._audio_callback` (audio.py:57-63): under the
lock, the delivered chunk is appended to the session buffer when the
recording flag is set; otherwise the state is untouched.  The `status`
argument is only logged (audio.py:59-60) and does not affect state. -/
def AudioRecorder.audio_callback (s : AudioRecorder) (indata : List ℚ) : AudioRecorder :=
  if s.recording then { s with audio_data := s.audio_data ++ [indata] } else s

/-- Embedding of the state mutation of `AudioRecorder.start` (audio.py:74-76):
clears the session buffer and sets the recording flag.  The sample-rate
re-query (lines 67-72) and the stream opening (lines 78-85) talk to the
sounddevice collaborator and do not change the modelled data fields. -/
def AudioRecorder.start (s : AudioRecorder) : AudioRecorder :=
  { s with audio_data := [], recording := true }

/-- Embedding of `AudioRecorder.stop` (audio.py:88-116): clears the recording
flag; with no accumulated chunks returns the empty buffer immediately;
otherwise concatenates and flattens the chunks, clears the chunk list, and
resamples when the device rate differs from the 16000 Hz target.  A
`resample` failure (possible only through `np.interp`) propagates. -/
def AudioRecorder.stop (s : AudioRecorder) : AudioRecorder × Except String (List ℚ) :=
  if s.audio_data.isEmpty then
    ({ s with recording := false }, .ok [])
  else if s.device_sample_rate ≠ TARGET_SAMPLE_RATE then
    ({ s with recording := false, audio_data := [] },
      resample s.audio_data.flatten s.device_sample_rate TARGET_SAMPLE_RATE)
  else
    ({ s with recording := false, audio_data := [] }, .ok s.audio_data.flatten)

/-- Embedding of the `AudioRecorder.is_recording` property (audio.py:118-122):
a lock-guarded read of the recording flag. -/
def AudioRecorder.is_recording (s : AudioRecorder) : Bool :=
  s.recording

/-! ### main.py: notification/delivery events

Observable calls made by `SuperWhisper._stop_recording` and
`SuperWhisper._worker_loop` to their collaborators (notifications, wl-copy
clipboard, transcription engine).  Tray updates are pure UI state and are
guarded by `if self.tray:` (the tray may be absent), so they are not
modelled. -/

inductive AppEvent where
  | engine (audio : List ℚ)
  | clipboard (text : String)
  | notifyDone (text : String)
  | notifyNoSpeech
  | notifyError (msg : String)
  | notifyStopped
deriving DecidableEq

/-- Embedding of `SuperWhisper._stop_recording` (main.py:189-210) from the
point the recorder is stopped: given the recorder state and the current
contents of the handoff queue, returns the new recorder state, the new queue
and the emitted events.  When `stop` returns a zero-length buffer the
pipeline notifies "No audio recorded" and returns without enqueuing;
otherwise it notifies the stop and enqueues the buffer.  An exception from
`stop` would propagate (no handler in `_stop_recording`). -/
def stopRecording (rec : AudioRecorder) (q : List (List ℚ)) :
    Except String (AudioRecorder × List (List ℚ) × List AppEvent) :=
  match rec.stop with
  | (rec', .ok audio) =>
    if audio.length = 0 then
      .ok (rec', q, [.notifyError "No audio recorded"])
    else
      .ok (rec', q ++ [audio], [.notifyStopped])
  | (_, .error e) => .error e

/-- Modelled from the spec: §4.2 describes a capture-callback level estimate
`level = min(1.0, rms * scaleFactor)` with `scaleFactor ≈ 5.0` exposed via a
lock-guarded `currentLevel` read.  No corresponding code exists in
`AudioRecorder` (the callback at audio.py:57-63 only appends the chunk, and
the only lock-guarded read is `is_recording` at audio.py:118-122), so the
spec's formula is defined here, from the spec's words alone, for comparison
against the code. -/
noncomputable def specCurrentLevel (chunk : List ℚ) : ℝ :=
  min 1 (Real.sqrt ((chunk.map (fun v => ((v : ℝ)) ^ 2)).sum / chunk.length) * 5)

theorem stop_clears_flag (s : AudioRecorder) : (s.stop).1.recording = false := by
  rw [AudioRecorder.stop]
  split
  · rfl
  · split <;> rfl

theorem foldl_audio_callback (cs : List (List ℚ)) :
    ∀ s : AudioRecorder, s.recording = true →
      cs.foldl AudioRecorder.audio_callback s =
        { s with audio_data := s.audio_data ++ cs } := by
  induction cs with
  | nil => intro s _; simp
  | cons c cs ih =>
    intro s h
    rw [List.foldl_cons]
    have hc : AudioRecorder.audio_callback s c =
        { s with audio_data := s.audio_data ++ [c] } := by
      rw [AudioRecorder.audio_callback, if_pos h]
    rw [hc, ih _ (by simpa using h)]
    simp

/-- C8: when `stop()` is called with no captured chunks accumulated, it
returns the zero-length buffer without failing, and `_stop_recording` then
reports "No audio recorded" via a notification and returns with the handoff
queue unchanged — nothing is enqueued, so the transcription engine is never
invoked for this event. -/
theorem c8_empty_audio_short_circuit (rec : AudioRecorder) (q : List (List ℚ))
    (h : rec.audio_data = []) :
    rec.stop = ({ rec with recording := false }, .ok []) ∧
    stopRecording rec q =
      .ok ({ rec with recording := false }, q, [.notifyError "No audio recorded"]) := by
  have hstop : rec.stop = ({ rec with recording := false }, .ok []) := by
    rw [AudioRecorder.stop, if_pos (by simp [h])]
  exact ⟨hstop, by simp [stopRecording, hstop]⟩

/-- C8 witness: a recorder that was started but received no chunks, with a
non-empty queue left intact. -/
theorem c8_empty_audio_short_circuit_witness :
    (AudioRecorder.mk true [] 48000).stop = (AudioRecorder.mk false [] 48000, .ok []) ∧
    stopRecording (AudioRecorder.mk true [] 48000) [[1]] =
      .ok (AudioRecorder.mk false [] 48000, [[1]], [.notifyError "No audio recorded"]) :=
  c8_empty_audio_short_circuit (AudioRecorder.mk true [] 48000) [[1]] rfl

/-- C9 counterexample: the capture callback on a silent chunk and on a
full-scale chunk produces states that agree in every field except the stored
chunk itself — the recorder state carries no level estimate at all — even
though the spec-side level of the two chunks differs (0 versus 1). -/
theorem c9_level_metering_counterexample :
    AudioRecorder.audio_callback (AudioRecorder.mk true [] 16000) [0] =
      AudioRecorder.mk true [[0]] 16000 ∧
    AudioRecorder.audio_callback (AudioRecorder.mk true [] 16000) [1] =
      AudioRecorder.mk true [[1]] 16000 ∧
    specCurrentLevel [0] ≠ specCurrentLevel [1] := by
  refine ⟨rfl, rfl, ?_⟩
  have h0 : specCurrentLevel [0] = 0 := by
    simp [specCurrentLevel]
  have h1 : specCurrentLevel [1] = 1 := by
    simp [specCurrentLevel]
  rw [h0, h1]
  norm_num

/-- C9 (amended): the capture callback appends the delivered chunk to the
session buffer when the recording flag is set and otherwise leaves the state
untouched; it computes no RMS level.  The recorder's lock-guarded
cross-thread read is `is_recording`; no `currentLevel` exists in the code. -/
theorem c9_callback_no_level :
    ∀ (s : AudioRecorder) (c : List ℚ),
      (s.audio_callback c).recording = s.recording ∧
      (s.audio_callback c).device_sample_rate = s.device_sample_rate ∧
      (s.audio_callback c = s ∨
        s.audio_callback c = { s with audio_data := s.audio_data ++ [c] }) ∧
      s.is_recording = s.recording := by
  intro s c
  by_cases h : s.recording <;>
    simp [AudioRecorder.audio_callback, AudioRecorder.is_recording, h]

/-- C10: the callback appends only while the recording flag is set and
modifies no other recorder state; starting a session and delivering chunks
`cs` to the callback makes `stop` return exactly their concatenation (at the
16000 Hz device rate, where no resampling applies), with the flag cleared
first and the chunk list emptied; and any callback invocation arriving after
`stop` leaves the recorder state unchanged. -/
theorem c10_recording_flag_invariant :
    ∀ (s : AudioRecorder) (cs : List (List ℚ)) (c : List ℚ),
      ((s.audio_callback c).recording = s.recording ∧
        (s.audio_callback c).device_sample_rate = s.device_sample_rate) ∧
      (s.recording = false → s.audio_callback c = s) ∧
      (s.device_sample_rate = TARGET_SAMPLE_RATE →
        ((cs.foldl AudioRecorder.audio_callback s.start).stop).2 = .ok cs.flatten) ∧
      ((cs.foldl AudioRecorder.audio_callback s.start).stop).1.audio_callback c =
        ((cs.foldl AudioRecorder.audio_callback s.start).stop).1 := by
  intro s cs c
  refine ⟨?_, ?_, ?_, ?_⟩
  · by_cases h : s.recording <;> simp [AudioRecorder.audio_callback, h]
  · intro h; simp [AudioRecorder.audio_callback, h]
  · intro hrate
    rw [foldl_audio_callback cs s.start rfl]
    cases cs with
    | nil => simp [AudioRecorder.stop, AudioRecorder.start]
    | cons c0 cs' =>
      simp [AudioRecorder.stop, AudioRecorder.start, hrate]
  · have hflag := stop_clears_flag (cs.foldl AudioRecorder.audio_callback s.start)
    simp [AudioRecorder.audio_callback, hflag]

/-- C10 witness: concrete session with two chunks at the target rate, and a
post-stop callback invocation on an idle recorder. -/
theorem c10_recording_flag_invariant_witness :
    AudioRecorder.audio_callback (AudioRecorder.mk false [] 16000) [5] =
      AudioRecorder.mk false [] 16000 ∧
    ((([[1], [2]] : List (List ℚ)).foldl AudioRecorder.audio_callback
        (AudioRecorder.start (AudioRecorder.mk false [] 16000))).stop).2 =
      .ok [1, 2] := by
  refine ⟨(c10_recording_flag_invariant (AudioRecorder.mk false [] 16000) [[1], [2]] [5]).2.1 rfl, ?_⟩
  have h := (c10_recording_flag_invariant (AudioRecorder.mk false [] 16000) [[1], [2]] [5]).2.2.1 rfl
  simpa using h

/-! ### audio.py: list_audio_devices (lines 125-180)

The sounddevice host is a collaborator: `sd.query_devices()` is modelled as
an input list of host device records carrying the dict keys the code reads
(`name`, `max_input_channels`, `default_samplerate`).  Python string
operations on the ASCII device names are modelled structurally over the
character lists: `str.lower()` maps `Char.toLower`, and the `in` substring
test is `containsSub`. -/

/-- Host device record as returned by `sd.query_devices()`: the dict keys
read by `list_audio_devices`.  The host reports `default_samplerate` as a
float, truncated with `int()` when the descriptor is built. -/
structure HostDevice where
  name : String
  max_input_channels : ℕ
  default_samplerate : ℚ
deriving DecidableEq

/-- Descriptor dict appended to `inputs` (audio.py:169-174). -/
structure DeviceDescriptor where
  index : ℕ
  name : String
  channels : ℕ
  sample_rate : ℕ
deriving DecidableEq

/-- Keywords that suggest a real microphone (audio.py:131-134). -/
def mic_positive : List String :=
  ["mic", "input", "line", "scarlett", "focusrite", "rode", "blue",
   "shure", "at2020", "yeti", "snowball", "usb audio", "headset"]

/-- Keywords that indicate NOT a microphone (audio.py:137-140). -/
def mic_negative : List String :=
  ["monitor", "output", "hdmi", "displayport", "speaker", "headphone",
   "spdif", "front", "surround", "iec958", "dmix", "split", "rear"]

/-- Virtual device names to exclude entirely (audio.py:143). -/
def virtual_devices : List String :=
  ["sysdefault", "pipewire", "default", "pulse", "null"]

/-- Python `str.lower()` on ASCII names: lowercase every character. -/
def strLower (s : String) : String :=
  ⟨s.data.map Char.toLower⟩

/-- Whether `needle` occurs at the start of `hay`. -/
def listStartsWith : List Char → List Char → Bool
  | [], _ => true
  | _ :: _, [] => false
  | c :: cs, d :: ds => c == d && listStartsWith cs ds

/-- Whether `needle` occurs contiguously anywhere in `hay`. -/
def containsSub : List Char → List Char → Bool
  | ns, [] => ns.isEmpty
  | ns, h :: t => listStartsWith ns (h :: t) || containsSub ns t

/-- Python's substring test `needle in hay`. -/
def strIn (needle hay : String) : Bool :=
  containsSub needle.data hay.data

/-- The filter decision of the loop body of `list_audio_devices`
(audio.py:145-168), with each `continue` in source order: skip devices with
no input channels, skip exact-match virtual device names, skip names with a
negative keyword, skip high channel counts (virtual aggregators), then
include hardware devices (`"(hw:" in name`, original case) or names with a
microphone keyword (lowercased). -/
def selectDevice (dev : HostDevice) : Bool :=
  if dev.max_input_channels ≤ 0 then false
  else if strLower dev.name ∈ virtual_devices then false
  else if mic_negative.any (fun kw => strIn kw (strLower dev.name)) then false
  else if 8 < dev.max_input_channels then false
  else strIn "(hw:" dev.name || mic_positive.any (fun kw => strIn kw (strLower dev.name))

/-- The descriptor built for an accepted device (audio.py:169-174), from its
enumeration index and record. -/
def mkDescriptor (i : ℕ) (dev : HostDevice) : DeviceDescriptor :=
  { index := i, name := dev.name, channels := dev.max_input_channels,
    sample_rate := intTrunc dev.default_samplerate }

/-- Python string comparison (code-point lexicographic). -/
def charListLt : List Char → List Char → Bool
  | [], [] => false
  | [], _ :: _ => true
  | _ :: _, [] => false
  | c :: cs, d :: ds =>
    if c.toNat < d.toNat then true
    else if c.toNat = d.toNat then charListLt cs ds
    else false

/-- Strict order on the sort key `(0 if "(hw:" in name else 1, name)` of
audio.py:177. -/
def keyLt (a b : DeviceDescriptor) : Bool :=
  if (if strIn "(hw:" a.name then (0 : ℕ) else 1) < (if strIn "(hw:" b.name then (0 : ℕ) else 1) then true
  else if (if strIn "(hw:" a.name then (0 : ℕ) else 1) = (if strIn "(hw:" b.name then (0 : ℕ) else 1) then
    charListLt a.name.data b.name.data
  else false

/-- Stable insertion into a key-sorted list: the inserted (earlier) element
goes before every element whose key is not strictly smaller. -/
def insertSorted (d : DeviceDescriptor) : List DeviceDescriptor → List DeviceDescriptor
  | [] => [d]
  | e :: es => if keyLt e d then e :: insertSorted d es else d :: e :: es

/-- Stable sort by the `(hardware-first, name)` key, modelling the stable
`inputs.sort(key=...)` of audio.py:177. -/
def sortInputs : List DeviceDescriptor → List DeviceDescriptor
  | [] => []
  | d :: ds => insertSorted d (sortInputs ds)

/-- Embedding of `list_audio_devices()` (audio.py:125-180) as a function of
the host's device list: enumerate, filter, build descriptors, then sort
hardware devices first. -/
def list_audio_devices (devices : List HostDevice) : List DeviceDescriptor :=
  sortInputs ((devices.enum.filter (fun p => selectDevice p.2)).map
    (fun p => mkDescriptor p.1 p.2))

/-- The claim's characterization of the filter, as one conjunction: channel
count between 1 and 8, lowercased name not an exact virtual alias, no
output/monitor keyword in the lowercased name, and either the
hardware-addressing substring in the name or a microphone keyword in the
lowercased name. -/
def passesFilter (dev : HostDevice) : Prop :=
  1 ≤ dev.max_input_channels ∧ dev.max_input_channels ≤ 8 ∧
  strLower dev.name ∉ virtual_devices ∧
  (∀ kw ∈ mic_negative, strIn kw (strLower dev.name) = false) ∧
  (strIn "(hw:" dev.name = true ∨ ∃ kw ∈ mic_positive, strIn kw (strLower dev.name) = true)

theorem mem_insertSorted (d e : DeviceDescriptor) (l : List DeviceDescriptor) :
    e ∈ insertSorted d l ↔ e = d ∨ e ∈ l := by
  induction l with
  | nil => simp [insertSorted]
  | cons x xs ih =>
    rw [insertSorted]
    split
    · rw [List.mem_cons, ih, List.mem_cons]
      tauto
    · simp only [List.mem_cons]

theorem mem_sortInputs (l : List DeviceDescriptor) (d : DeviceDescriptor) :
    d ∈ sortInputs l ↔ d ∈ l := by
  induction l with
  | nil => simp [sortInputs]
  | cons x xs ih =>
    rw [sortInputs, mem_insertSorted, ih, List.mem_cons]

theorem selectDevice_iff (dev : HostDevice) :
    selectDevice dev = true ↔ passesFilter dev := by
  rw [selectDevice, passesFilter]
  split_ifs with h1 h2 h3 h4
  · simp only [Bool.false_eq_true, false_iff]
    rintro ⟨hc, -⟩
    omega
  · simp only [Bool.false_eq_true, false_iff]
    rintro ⟨-, -, hv, -⟩
    exact hv h2
  · simp only [Bool.false_eq_true, false_iff]
    rintro ⟨-, -, -, hn, -⟩
    rw [List.any_eq_true] at h3
    obtain ⟨kw, hkw, hin⟩ := h3
    rw [hn kw hkw] at hin
    exact Bool.false_ne_true hin
  · simp only [Bool.false_eq_true, false_iff]
    rintro ⟨-, hc, -⟩
    omega
  · rw [Bool.or_eq_true, List.any_eq_true]
    constructor
    · intro hb
      refine ⟨by omega, by omega, h2, ?_, hb⟩
      intro kw hkw
      by_contra hne
      exact h3 (List.any_eq_true.mpr ⟨kw, hkw, by simpa using hne⟩)
    · rintro ⟨-, -, -, -, hpos⟩
      exact hpos

/-- C6: a host device's descriptor appears in the `list_audio_devices` result
exactly when the device has between 1 and 8 input channels, its lowercased
name is not an exact-match virtual alias, no output/monitor keyword occurs in
it, and the name carries the hardware-addressing substring or a microphone
keyword.  In particular "HDMI Monitor Output (hw:2,3)" is excluded, a
1-channel "USB Headset Mic" is included, and a 10-channel device is excluded
regardless of name. -/
theorem c6_device_filter :
    (∀ (devices : List HostDevice) (d : DeviceDescriptor),
        d ∈ list_audio_devices devices ↔
          ∃ p ∈ devices.enum, passesFilter p.2 ∧ d = mkDescriptor p.1 p.2) ∧
    list_audio_devices [⟨"HDMI Monitor Output (hw:2,3)", 2, 44100⟩] = [] ∧
    list_audio_devices [⟨"USB Headset Mic", 1, 44100⟩] =
      [⟨0, "USB Headset Mic", 1, 44100⟩] ∧
    list_audio_devices [⟨"Quantum Aggregator Mic", 10, 44100⟩] = [] := by
  refine ⟨?_, by decide, by decide, by decide⟩
  intro devices d
  rw [list_audio_devices, mem_sortInputs, List.mem_map]
  constructor
  · rintro ⟨p, hp, rfl⟩
    rw [List.mem_filter] at hp
    exact ⟨p, hp.1, (selectDevice_iff p.2).mp hp.2, rfl⟩
  · rintro ⟨p, hp, hpass, rfl⟩
    exact ⟨p, List.mem_filter.mpr ⟨hp, (selectDevice_iff p.2).mpr hpass⟩, rfl⟩

/-- C6 witness: the membership characterization instantiated at the included
headset microphone. -/
theorem c6_device_filter_witness :
    (⟨0, "USB Headset Mic", 1, 44100⟩ : DeviceDescriptor) ∈
      list_audio_devices [⟨"USB Headset Mic", 1, 44100⟩] :=
  (c6_device_filter.1 [⟨"USB Headset Mic", 1, 44100⟩]
      ⟨0, "USB Headset Mic", 1, 44100⟩).mpr
    ⟨(0, ⟨"USB Headset Mic", 1, 44100⟩), by decide,
      (selectDevice_iff ⟨"USB Headset Mic", 1, 44100⟩).mp (by decide), by decide⟩

/-! ### audio.py: wait_for_microphone (lines 230-302)

Discrete-time model of the polling loop: one step per `check_interval`
(0.5 s) sleep.  `schedule k` is the device list the k-th
`list_audio_devices()` call observes, `maxPolls` is the timeout and
`stabilizePolls` the stabilize time, both expressed in poll periods.  The
leading `wait_for_audio_service` call (line 251) only delays and its Bool
result is ignored by the code, so it is not modelled.  The returned pair
carries the poll index at which the function returned, so that returning
before the timeout (`< maxPolls`) is observable. -/

/-- The `if target_name:`-guarded scan of audio.py:263-272: true when a
target was given (Python truthiness: not None, not the empty string) and a
device with exactly that name is present. -/
def targetFound (target_name : Option String) (devices : List DeviceDescriptor) : Bool :=
  match target_name with
  | none => false
  | some t => !t.isEmpty && devices.any (fun dev => dev.name == t)

/-- The `stable_since and (time.time() - stable_since) >= stabilize_time`
test of audio.py:279, in poll periods. -/
def stableLongEnough (stable_since : Option ℕ) (stabilizePolls k : ℕ) : Bool :=
  match stable_since with
  | some s => decide (stabilizePolls ≤ k - s)
  | none => false

/-- The `while (time.time() - start_time) < timeout` loop of
audio.py:258-290, with `fuel` the remaining polls, `k` the current poll
index, and the loop state `last_device_count` (initially -1) and
`stable_since`.  On fuel exhaustion the code falls through to line 293 and
returns one final `list_audio_devices()` call. -/
def wait_for_microphone_loop (schedule : ℕ → List DeviceDescriptor)
    (target_name : Option String) (stabilizePolls : ℕ) :
    ℕ → ℕ → ℤ → Option ℕ → List DeviceDescriptor × ℕ
  | 0, k, _, _ => (schedule k, k)
  | fuel + 1, k, last_device_count, stable_since =>
    if targetFound target_name (schedule k) then (schedule k, k)
    else if ((schedule k).length : ℤ) ≠ last_device_count then
      wait_for_microphone_loop schedule target_name stabilizePolls fuel (k + 1)
        ((schedule k).length : ℤ) (some k)
    else if stableLongEnough stable_since stabilizePolls k then
      if 0 < (schedule k).length then (schedule k, k)
      else
        wait_for_microphone_loop schedule target_name stabilizePolls fuel (k + 1)
          last_device_count stable_since
    else
      wait_for_microphone_loop schedule target_name stabilizePolls fuel (k + 1)
        last_device_count stable_since

/-- Embedding of `wait_for_microphone(target_name, timeout, stabilize_time)`
(audio.py:230-302). -/
def wait_for_microphone (schedule : ℕ → List DeviceDescriptor)
    (target_name : Option String) (maxPolls stabilizePolls : ℕ) :
    List DeviceDescriptor × ℕ :=
  wait_for_microphone_loop schedule target_name stabilizePolls maxPolls 0 (-1) none

theorem wfm_loop_early (schedule : ℕ → List DeviceDescriptor)
    (target_name : Option String) (stabilizePolls : ℕ) :
    ∀ (fuel k : ℕ) (last : ℤ) (st : Option ℕ),
      (wait_for_microphone_loop schedule target_name stabilizePolls fuel k last st).2 < k + fuel →
        targetFound target_name
            (wait_for_microphone_loop schedule target_name stabilizePolls fuel k last st).1 = true ∨
          (wait_for_microphone_loop schedule target_name stabilizePolls fuel k last st).1 ≠ [] := by
  intro fuel
  induction fuel with
  | zero =>
    intro k last st h
    rw [wait_for_microphone_loop] at h
    omega
  | succ fuel ih =>
    intro k last st h
    by_cases h1 : targetFound target_name (schedule k) = true
    · have hL : wait_for_microphone_loop schedule target_name stabilizePolls (fuel + 1) k last st =
          (schedule k, k) := by
        rw [wait_for_microphone_loop, if_pos h1]
      rw [hL]
      exact Or.inl h1
    · by_cases h2 : ((schedule k).length : ℤ) ≠ last
      · have hL : wait_for_microphone_loop schedule target_name stabilizePolls (fuel + 1) k last st =
            wait_for_microphone_loop schedule target_name stabilizePolls fuel (k + 1)
              ((schedule k).length : ℤ) (some k) := by
          rw [wait_for_microphone_loop, if_neg h1, if_pos h2]
        rw [hL] at h ⊢
        exact ih (k + 1) ((schedule k).length : ℤ) (some k) (by omega)
      · by_cases h3 : stableLongEnough st stabilizePolls k = true
        · by_cases h4 : 0 < (schedule k).length
          · have hL : wait_for_microphone_loop schedule target_name stabilizePolls (fuel + 1) k last st =
                (schedule k, k) := by
              rw [wait_for_microphone_loop, if_neg h1, if_neg h2, if_pos h3, if_pos h4]
            rw [hL]
            right
            intro hnil
            have hnil' : schedule k = [] := hnil
            rw [hnil'] at h4
            simp at h4
          · have hL : wait_for_microphone_loop schedule target_name stabilizePolls (fuel + 1) k last st =
                wait_for_microphone_loop schedule target_name stabilizePolls fuel (k + 1) last st := by
              rw [wait_for_microphone_loop, if_neg h1, if_neg h2, if_pos h3, if_neg h4]
            rw [hL] at h ⊢
            exact ih (k + 1) last st (by omega)
        · have hL : wait_for_microphone_loop schedule target_name stabilizePolls (fuel + 1) k last st =
              wait_for_microphone_loop schedule target_name stabilizePolls fuel (k + 1) last st := by
            rw [wait_for_microphone_loop, if_neg h1, if_neg h2, if_neg h3]
          rw [hL] at h ⊢
          exact ih (k + 1) last st (by omega)

theorem wfm_loop_empty_schedule (schedule : ℕ → List DeviceDescriptor)
    (target_name : Option String) (stabilizePolls : ℕ)
    (hsched : ∀ k, schedule k = []) :
    ∀ (fuel k : ℕ) (last : ℤ) (st : Option ℕ),
      wait_for_microphone_loop schedule target_name stabilizePolls fuel k last st =
        ([], k + fuel) := by
  intro fuel
  induction fuel with
  | zero =>
    intro k last st
    rw [wait_for_microphone_loop, hsched]
    simp
  | succ fuel ih =>
    intro k last st
    have htf : ¬targetFound target_name (schedule k) = true := by
      cases target_name with
      | none => simp [targetFound]
      | some t => simp [targetFound, hsched]
    by_cases h2 : ((schedule k).length : ℤ) ≠ last
    · rw [wait_for_microphone_loop, if_neg htf, if_pos h2, ih (k + 1)]
      congr 1
      omega
    · by_cases h3 : stableLongEnough st stabilizePolls k = true
      · have h4 : ¬0 < (schedule k).length := by simp [hsched]
        rw [wait_for_microphone_loop, if_neg htf, if_neg h2, if_pos h3, if_neg h4, ih (k + 1)]
        congr 1
        omega
      · rw [wait_for_microphone_loop, if_neg htf, if_neg h2, if_neg h3, ih (k + 1)]
        congr 1
        omega

/-- C5 counterexample: with a target name given that never appears, the
function still returns well before the timeout — at the third poll, when the
device count (one non-target device throughout) has been stable for
`stabilizePolls` periods — so the device-count stabilization early return is
not restricted to the no-target case. -/
theorem c5_wait_for_microphone_counterexample :
    wait_for_microphone (fun _ => [⟨0, "Other Mic", 1, 44100⟩])
        (some "USB Headset Mic") 30 2 =
      ([⟨0, "Other Mic", 1, 44100⟩], 2) ∧
    2 < 30 ∧
    ∀ dev ∈ [(⟨0, "Other Mic", 1, 44100⟩ : DeviceDescriptor)],
      dev.name ≠ "USB Headset Mic" := by
  decide

/-- C5 (amended): with a target given, `wait_for_microphone` returns before
the timeout only when the target device appears or when the device count has
stabilized at a positive value (the stabilization early return applies with
or without a target); and when the target never appears and no devices are
ever observed it polls until the timeout and then returns the last observed
(empty) device list without failing. -/
theorem c5_wait_for_microphone :
    ∀ (schedule : ℕ → List DeviceDescriptor) (t : String) (maxPolls stabilizePolls : ℕ),
      ((wait_for_microphone schedule (some t) maxPolls stabilizePolls).2 < maxPolls →
        (∃ dev ∈ (wait_for_microphone schedule (some t) maxPolls stabilizePolls).1,
            dev.name = t) ∨
          (wait_for_microphone schedule (some t) maxPolls stabilizePolls).1 ≠ []) ∧
      ((∀ k, schedule k = []) →
        wait_for_microphone schedule (some t) maxPolls stabilizePolls = ([], maxPolls)) := by
  intro schedule t maxPolls stabilizePolls
  constructor
  · intro hearly
    have h := wfm_loop_early schedule (some t) stabilizePolls maxPolls 0 (-1) none
      (by simpa [wait_for_microphone] using hearly)
    rw [wait_for_microphone] at *
    rcases h with h | h
    · left
      rw [targetFound] at h
      have hany := (Bool.and_eq_true _ _).mp h |>.2
      obtain ⟨dev, hdev, hbeq⟩ := List.any_eq_true.mp hany
      exact ⟨dev, hdev, by simpa using hbeq⟩
    · right
      exact h
  · intro hsched
    have h := wfm_loop_empty_schedule schedule (some t) stabilizePolls hsched maxPolls 0 (-1) none
    rw [wait_for_microphone, h]
    congr 1
    omega

/-- C5 witness: the target-found early return on a schedule holding the
target, and the timeout return on an always-empty schedule. -/
theorem c5_wait_for_microphone_witness :
    ((∃ dev ∈ (wait_for_microphone (fun _ => [⟨0, "USB Headset Mic", 1, 44100⟩])
          (some "USB Headset Mic") 5 2).1, dev.name = "USB Headset Mic") ∨
      (wait_for_microphone (fun _ => [⟨0, "USB Headset Mic", 1, 44100⟩])
          (some "USB Headset Mic") 5 2).1 ≠ []) ∧
    wait_for_microphone (fun _ => []) (some "USB Headset Mic") 3 1 = ([], 3) :=
  ⟨(c5_wait_for_microphone (fun _ => [⟨0, "USB Headset Mic", 1, 44100⟩])
      "USB Headset Mic" 5 2).1 (by decide),
   (c5_wait_for_microphone (fun _ => []) "USB Headset Mic" 3 1).2 (fun _ => rfl)⟩

/-! ### transcribe.py: Transcriber.transcribe (lines 116-142)

The Whisper model is an opaque collaborator: `model` stands for the
`self._model.transcribe(...)` call of lines 127-132, producing the segment
texts or raising, and `load` stands for the outcome of the `self.load_model()`
call at line 118 (its exception propagates out of `transcribe`). -/

/-- Embedding of `Transcriber.transcribe(audio, language)`
(transcribe.py:116-142): a model-load failure propagates; empty audio
short-circuits to the empty string (lines 120-121); the engine's segment
texts are stripped and joined with single spaces (lines 134-135); an engine
exception is caught at lines 139-141 and converted to the empty string. -/
def Transcriber.transcribe (load : Except String Unit)
    (model : List ℚ → Except String (List String)) (audio : List ℚ) :
    Except String String :=
  match load with
  | .error e => .error e
  | .ok _ =>
    if audio.length = 0 then .ok ""
    else
      match model audio with
      | .ok segments => .ok (String.intercalate " " (segments.map String.trim))
      | .error _ => .ok ""

/-! ### main.py: SuperWhisper._worker_loop (lines 214-264) -/

/-- Whether an event is a call into the transcription engine. -/
def AppEvent.isEngineCall : AppEvent → Bool
  | .engine _ => true
  | _ => false

/-- One pass of the `while True` body of `SuperWhisper._worker_loop`
(main.py:218-264).  `tr` is the `self.transcriber.transcribe` call; `first`
is the buffer the blocking `get()` returns (line 220); `queued` holds the
buffers already in the queue, consumed by the drain loop (lines 229-234)
which keeps only the most recently pushed one; `arrivals` holds the buffers
pushed while the transcribe call (line 236) ran, observed by the emptiness
check at line 241 and left in the queue for the next pass.  Returns the
collaborator events emitted during the pass and the queue contents at the
end of the pass.  An exception in the body is caught at lines 258-264,
reported via `notify_error`, and the loop continues; tray updates are
guarded UI calls and are not modelled. -/
def workerLoopIter (tr : List ℚ → Except String String)
    (first : List ℚ) (queued arrivals : List (List ℚ)) :
    List AppEvent × List (List ℚ) :=
  let audio := queued.getLastD first
  match tr audio with
  | .error e => ([.engine audio, .notifyError e], arrivals)
  | .ok text =>
    if !arrivals.isEmpty then ([.engine audio], arrivals)
    else if text ≠ "" then
      ([.engine audio, .clipboard text, .notifyDone text], arrivals)
    else ([.engine audio, .notifyNoSpeech], arrivals)

/-- C1: when B1, B2, B3 are all queued before the worker begins the pass (B1
from the blocking get, B2 and B3 drained), the pass makes exactly one engine
call, on B3, and leaves the queue empty — B1 and B2 are dequeued and
discarded without being transcribed. -/
theorem c1_drain_to_latest :
    ∀ (tr : List ℚ → Except String String) (B1 B2 B3 : List ℚ),
      (workerLoopIter tr B1 [B2, B3] []).1.filter AppEvent.isEngineCall =
        [.engine B3] ∧
      (workerLoopIter tr B1 [B2, B3] []).2 = [] := by
  intro tr B1 B2 B3
  have hlast : ([B2, B3] : List (List ℚ)).getLastD B1 = B3 := rfl
  cases htr : tr B3 with
  | error e =>
    simp [workerLoopIter, hlast, htr, AppEvent.isEngineCall]
  | ok text =>
    by_cases htext : text = ""
    · simp [workerLoopIter, hlast, htr, htext, AppEvent.isEngineCall]
    · simp [workerLoopIter, hlast, htr, htext, AppEvent.isEngineCall]

/-- C2: when B2 is pushed while B1 is mid-transcription, the pass delivers
nothing for B1 (no clipboard copy, no completion notification) and leaves B2
in the queue; the next pass's single engine call is on B2, and when its
transcription succeeds with non-empty text it is delivered normally. -/
theorem c2_stale_result_suppression :
    ∀ (tr : List ℚ → Except String String) (B1 B2 : List ℚ),
      (∀ t, AppEvent.clipboard t ∉ (workerLoopIter tr B1 [] [B2]).1) ∧
      (∀ t, AppEvent.notifyDone t ∉ (workerLoopIter tr B1 [] [B2]).1) ∧
      (workerLoopIter tr B1 [] [B2]).2 = [B2] ∧
      (workerLoopIter tr B2 [] []).1.filter AppEvent.isEngineCall = [.engine B2] ∧
      (∀ t, tr B2 = .ok t → t ≠ "" →
        workerLoopIter tr B2 [] [] =
          ([.engine B2, .clipboard t, .notifyDone t], [])) := by
  intro tr B1 B2
  refine ⟨?_, ?_, ?_, ?_, ?_⟩
  · intro t
    cases htr : tr B1 <;> simp [workerLoopIter, htr]
  · intro t
    cases htr : tr B1 <;> simp [workerLoopIter, htr]
  · cases htr : tr B1 <;> simp [workerLoopIter, htr]
  · cases htr : tr B2 with
    | error e => simp [workerLoopIter, htr, AppEvent.isEngineCall]
    | ok text =>
      by_cases htext : text = "" <;>
        simp [workerLoopIter, htr, htext, AppEvent.isEngineCall]
  · intro t htr htext
    simp [workerLoopIter, htr, htext]

/-- C2 witness: concrete engine succeeding with "hi" on both buffers. -/
theorem c2_stale_result_suppression_witness :
    (∀ t, AppEvent.clipboard t ∉
      (workerLoopIter (fun _ => .ok "hi") [0] [] [[1]]).1) ∧
    (workerLoopIter (fun _ => .ok "hi") [0] [] [[1]]).2 = [[1]] ∧
    workerLoopIter (fun _ => .ok "hi") [1] [] [] =
      ([.engine [1], .clipboard "hi", .notifyDone "hi"], []) := by
  refine ⟨(c2_stale_result_suppression (fun _ => .ok "hi") [0] [1]).1, ?_, ?_⟩
  · exact (c2_stale_result_suppression (fun _ => .ok "hi") [0] [1]).2.2.1
  · exact (c2_stale_result_suppression (fun _ => .ok "hi") [0] [1]).2.2.2.2
      "hi" rfl (by decide)

/-- C3 counterexample: when the engine call raises mid-transcription,
`Transcriber.transcribe` catches the exception and returns the empty string
(transcribe.py:139-141), so the worker reports the failure through the
no-speech notification, not through `notify_error` — an engine failure is
reported as "no speech". -/
theorem c3_error_vs_silence_counterexample :
    workerLoopIter
        (Transcriber.transcribe (.ok ()) (fun _ => .error "CUDA error")) [1] [] [] =
      ([.engine [1], .notifyNoSpeech], []) ∧
    ∀ e, AppEvent.notifyError e ∉
      (workerLoopIter
        (Transcriber.transcribe (.ok ()) (fun _ => .error "CUDA error")) [1] [] []).1 := by
  constructor
  · rfl
  · intro e
    simp [workerLoopIter, Transcriber.transcribe]

/-- C3 (amended): an exception raised by the model call inside
`Transcriber.transcribe` is caught there and yields the empty string, which
the worker reports via the no-speech notification — such an engine failure
is indistinguishable from silence; only an exception escaping
`Transcriber.transcribe` (a model-load failure) reaches the worker's handler
and is reported via `notify_error`.  In both cases the pass completes and a
later pass still serves its buffer. -/
theorem c3_error_vs_silence :
    ∀ (model : List ℚ → Except String (List String)) (audio B : List ℚ)
      (e : String) (q arrivals : List (List ℚ)),
      (audio ≠ [] → model audio = .error e →
        workerLoopIter (Transcriber.transcribe (.ok ()) model) audio [] [] =
          ([.engine audio, .notifyNoSpeech], [])) ∧
      (∀ le, workerLoopIter (Transcriber.transcribe (.error le) model) audio q arrivals =
        ([.engine (q.getLastD audio), .notifyError le], arrivals)) ∧
      (workerLoopIter (Transcriber.transcribe (.ok ()) model) B [] []).1.filter
        AppEvent.isEngineCall = [.engine B] := by
  intro model audio B e q arrivals
  refine ⟨?_, ?_, ?_⟩
  · intro hne hmodel
    have hlen : audio.length ≠ 0 := by
      simpa using List.length_pos.mpr hne |>.ne'
    simp [workerLoopIter, Transcriber.transcribe, hlen, hmodel]
  · intro le
    simp [workerLoopIter, Transcriber.transcribe]
  · cases htr : Transcriber.transcribe (.ok ()) model B with
    | error e2 => simp [workerLoopIter, htr, AppEvent.isEngineCall]
    | ok text =>
      by_cases htext : text = "" <;>
        simp [workerLoopIter, htr, htext, AppEvent.isEngineCall]

/-- C3 witness: engine raising "boom" on a one-sample buffer, and a separate
model-load failure. -/
theorem c3_error_vs_silence_witness :
    workerLoopIter
        (Transcriber.transcribe (.ok ()) (fun _ => .error "boom")) [1] [] [] =
      ([.engine [1], .notifyNoSpeech], []) ∧
    workerLoopIter
        (Transcriber.transcribe (.error "load failed") (fun _ => .error "boom")) [1] [] [] =
      ([.engine [1], .notifyError "load failed"], []) ∧
    (workerLoopIter
        (Transcriber.transcribe (.ok ()) (fun _ => .error "boom")) [2] [] []).1.filter
      AppEvent.isEngineCall = [.engine [2]] := by
  refine ⟨?_, ?_, ?_⟩
  · exact (c3_error_vs_silence (fun _ => .error "boom") [1] [2] "boom" [] []).1
      (by simp) rfl
  · exact (c3_error_vs_silence (fun _ => .error "boom") [1] [2] "boom" [] []).2.1
      "load failed"
  · exact (c3_error_vs_silence (fun _ => .error "boom") [1] [2] "boom" [] []).2.2

end Superwhisper
